import Mathlib

/-!
A shallow embedding of the ollama-proxy request pipeline.

Sources embedded here:
* `src/server.js` — the `OllamaProxy` class: the tracking middleware
  (`setupMiddleware`), the `proxyRequest` handler with its success branch,
  catch branch and `finally` block, and the four extractor methods
  (`extractModel`, `extractInputTokens`, `extractOutputTokens`,
  `extractModelParameters`).
* `src/logger.js` — the `CSVLogger` class: `formatValue`, `log` (one CSV row
  per call) and the log-file path computation in the constructor.

Modelling conventions:
* JavaScript `undefined`/`null` object properties are `Option.none`; the
  `a || b` fallback chains of the source are modelled by explicit
  truthiness helpers (`0`, `""`, `false`, `null` and `undefined` are falsy).
* Numeric sampling parameters (`temperature`, ...) are carried as the literal
  text `JSON.stringify` emits for them (for example "0.7"), so the CSV
  serialization can be stated exactly without a floating-point model.
* Wall-clock readings (`Date.now()`), the upstream outcome, and the system
  load sample are inputs of the embedded handler: the code only moves them
  into the record, it does not compute them.
* The event-loop interleaving of concurrent requests is modelled by a trace
  of scheduler steps (`Step.enter` = middleware + handler entry up to the
  await on the upstream call, `Step.complete` = resumption: branch code,
  response send, and the `res.on('finish')` gauge decrement), which is where
  the concurrency-gauge and records-count invariants are stated.
-/

namespace OllamaProxy

/-- JavaScript truthiness on an optional string: `undefined`, `null` and the
empty string are falsy, so `a || b` keeps `a` only when it is a non-empty
string. -/
def truthyStr (o : Option String) : Option String :=
  o.bind fun s => if s = "" then none else some s

/-- JavaScript truthiness on an optional integer: `undefined`, `null` and `0`
are falsy. -/
def truthyInt (o : Option Int) : Option Int :=
  o.bind fun n => if n = 0 then none else some n

/-- The fields of a parsed JSON request body that `server.js` reads.  `none`
models an absent (`undefined`) property.  The six whitelisted sampling
parameters are carried as their JSON literal text. -/
structure RequestBody where
  model : Option String := none
  stream : Option Bool := none
  temperature : Option String := none
  top_p : Option String := none
  top_k : Option String := none
  max_tokens : Option String := none
  num_predict : Option String := none
  repeat_penalty : Option String := none
  deriving DecidableEq

/-- The fields of an upstream response body that the extractors read,
together with `raw`, the body's JSON text (used by the code for
`response_size_bytes = JSON.stringify(responseData).length` and relayed
verbatim by `res.send`).  `message_model` is `responseData?.message?.model`;
`usage_prompt_tokens` and `usage_completion_tokens` are the
`responseData?.usage?.*` lookups. -/
structure ResponseData where
  raw : String := ""
  model : Option String := none
  message_model : Option String := none
  prompt_eval_count : Option Int := none
  eval_count : Option Int := none
  usage_prompt_tokens : Option Int := none
  usage_completion_tokens : Option Int := none
  deriving DecidableEq

/-- An axios resolution: since the request config sets
`validateStatus: () => true`, every HTTP status (including 4xx/5xx) resolves
to one of these rather than throwing. -/
structure UpstreamResponse where
  status : Nat := 200
  headers : List (String × String) := []
  data : ResponseData := {}
  deriving DecidableEq

/-- An axios rejection: a transport-level failure (connection refused,
timeout, DNS failure).  `responseStatus` is the `error.response?.status`
lookup of the catch block. -/
structure TransportError where
  message : String := ""
  code : Option String := none
  responseStatus : Option Nat := none
  deriving DecidableEq

/-- The outcome of `await axios(ollamaConfig)`. -/
inductive UpstreamOutcome where
  | ok : UpstreamResponse → UpstreamOutcome
  | failed : TransportError → UpstreamOutcome
  deriving DecidableEq

/-- One inbound request as the tracking middleware and the handler see it.
`startTime` and `requestId` are attached by the middleware; `xSessionId` is
the `x-session-id` header; `bodyJsonLen` is
`JSON.stringify(req.body || \x7b\x7d).length`. -/
structure Req where
  startTime : Int := 0
  requestId : String := ""
  xSessionId : Option String := none
  ip : String := ""
  remoteAddress : String := ""
  userAgent : Option String := none
  method : String := "POST"
  path : String := "/api/generate"
  body : Option RequestBody := none
  bodyJsonLen : Nat := 2
  deriving DecidableEq

/-- The `Date.now()` readings `proxyRequest` takes, in source order:
`queueStartTime`, `processingStartTime`, `processingEndTime`, and the final
reading used for `total_time_ms`. -/
structure Clock where
  queueStart : Int := 0
  processingStart : Int := 0
  processingEnd : Int := 0
  finish : Int := 0
  deriving DecidableEq

/-- The `getSystemLoad()` sample: `cpu.user` and the rounded used-memory
percentage. -/
structure Load where
  cpuUser : Int := 0
  memory : Int := 0
  deriving DecidableEq

/-- The mutable `logData` object of `proxyRequest`.  Every field is optional:
a field is `none` until (and unless) the code path assigns it. -/
structure LogData where
  request_id : Option String := none
  ip_source : Option String := none
  user_agent : Option String := none
  http_method : Option String := none
  endpoint : Option String := none
  session_id : Option String := none
  concurrent_requests : Option Int := none
  request_size_bytes : Option Nat := none
  model : Option String := none
  input_tokens : Option Int := none
  output_tokens : Option Int := none
  total_tokens : Option Int := none
  model_parameters : Option (List (String × String)) := none
  stream_mode : Option Bool := none
  response_size_bytes : Option Nat := none
  http_status : Option Nat := none
  queue_time_ms : Option Int := none
  processing_time_ms : Option Int := none
  total_time_ms : Option Int := none
  system_load_cpu : Option Int := none
  system_load_memory : Option Int := none
  error_message : Option String := none
  deriving DecidableEq

/-- `extractModel` (server.js 197-202): `requestBody?.model ||
responseData?.model || responseData?.message?.model || 'unknown'`. -/
def extractModel (requestBody : Option RequestBody) (responseData : ResponseData) : String :=
  ((truthyStr (requestBody.bind RequestBody.model)).orElse fun _ =>
    (truthyStr responseData.model).orElse fun _ =>
      truthyStr responseData.message_model).getD "unknown"

/-- `extractInputTokens` (server.js 204-208): `responseData?.prompt_eval_count
|| responseData?.usage?.prompt_tokens || 0`. -/
def extractInputTokens (responseData : ResponseData) : Int :=
  ((truthyInt responseData.prompt_eval_count).orElse fun _ =>
    truthyInt responseData.usage_prompt_tokens).getD 0

/-- `extractOutputTokens` (server.js 210-214): `responseData?.eval_count ||
responseData?.usage?.completion_tokens || 0`. -/
def extractOutputTokens (responseData : ResponseData) : Int :=
  ((truthyInt responseData.eval_count).orElse fun _ =>
    truthyInt responseData.usage_completion_tokens).getD 0

/-- `extractModelParameters` (server.js 216-229): the whitelisted keys, in
source order, keeping exactly the keys whose value is not `undefined`
(a present falsy value such as `0` is kept); an empty collection becomes
`null`, and a missing request body yields `null`. -/
def extractModelParameters (requestBody : Option RequestBody) :
    Option (List (String × String)) :=
  match requestBody with
  | none => none
  | some b =>
    let params : List (String × String) :=
      ([("temperature", b.temperature), ("top_p", b.top_p), ("top_k", b.top_k),
        ("max_tokens", b.max_tokens), ("num_predict", b.num_predict),
        ("repeat_penalty", b.repeat_penalty)]).filterMap
        fun kv => kv.2.map fun v => (kv.1, v)
    if params.isEmpty then none else some params

/-- Middleware (server.js 31): `req.sessionId = req.headers['x-session-id']
|| req.ip`. -/
def sessionIdOf (r : Req) : String :=
  (truthyStr r.xSessionId).getD r.ip

/-- `req.ip || req.connection.remoteAddress` (server.js 69). -/
def ipSource (r : Req) : String :=
  if r.ip = "" then r.remoteAddress else r.ip

/-- Double every quote character of a character list; this is the effect of
`.replace(/"/g, '""')` in `CSVLogger.formatValue`. -/
def doubleQuotesChars : List Char → List Char
  | [] => []
  | c :: cs => if c = '\"' then c :: c :: doubleQuotesChars cs else c :: doubleQuotesChars cs

/-- `.replace(/"/g, '""')` on a string. -/
def escapeQuotes (s : String) : String :=
  ⟨doubleQuotesChars s.data⟩

/-- Standard CSV unquoting of a field's content: each doubled quote becomes a
single quote (non-overlapping, left to right). -/
def collapseQuotesChars : List Char → List Char
  | '\"' :: '\"' :: cs => '\"' :: collapseQuotesChars cs
  | c :: cs => c :: collapseQuotesChars cs
  | [] => []

/-- Standard CSV unquoting of a field's content. -/
def csvUnquote (s : String) : String :=
  ⟨collapseQuotesChars s.data⟩

/-- `JSON.stringify` of the model-parameters object: keys in insertion
(whitelist) order, each value emitted as its literal text. -/
def jsonStringifyParams (l : List (String × String)) : String :=
  "\x7b" ++ String.intercalate "," (l.map fun kv => "\"" ++ kv.1 ++ "\":" ++ kv.2) ++ "\x7d"

/-- A JavaScript value as it reaches `CSVLogger.formatValue`. -/
inductive CsvValue where
  | nullv : CsvValue
  | str : String → CsvValue
  | int : Int → CsvValue
  | bool : Bool → CsvValue
  | obj : List (String × String) → CsvValue
  deriving DecidableEq

/-- `CSVLogger.formatValue` (logger.js): `null`/`undefined` become the empty
string; an object is `JSON.stringify`-ed and has its quotes doubled;
everything else is `String(value)` with its quotes doubled (numbers and
booleans contain no quote, so the replace is the identity on them). -/
def formatValue : CsvValue → String
  | .nullv => ""
  | .str s => escapeQuotes s
  | .int n => toString n
  | .bool b => toString b
  | .obj l => escapeQuotes (jsonStringifyParams l)

/-- The `model_parameters` entry of the row array: the explicit
`this.formatValue(data.model_parameters)` call receives the object itself, or
`null`/`undefined` when unset. -/
def paramsValue : Option (List (String × String)) → CsvValue
  | none => .nullv
  | some l => .obj l

/-- `CSVLogger.log`: the 23 cell values of one row, in source order, with the
source's `||` defaulting applied, before the final `.map` pass.  The `getD`
defaults agree with `||` here because each fallback value is itself the falsy
value of the cell's type; `http_status` (`data.http_status || ''`) is spelled
out since its fallback is a string.  The `model_parameters` cell is the string
returned by the explicit `formatValue` call at row-construction time; the
`.map` below then applies `formatValue` to it a second time. -/
def logCells (timestamp : String) (d : LogData) : List CsvValue :=
  [ .str timestamp,
    .str (d.request_id.getD ""),
    .str (d.ip_source.getD ""),
    .str (d.user_agent.getD ""),
    .str (d.http_method.getD ""),
    .str (d.endpoint.getD ""),
    .str (d.model.getD ""),
    .int (d.input_tokens.getD 0),
    .int (d.output_tokens.getD 0),
    .int (d.total_tokens.getD 0),
    .int (Int.ofNat (d.request_size_bytes.getD 0)),
    .int (Int.ofNat (d.response_size_bytes.getD 0)),
    .int (d.queue_time_ms.getD 0),
    .int (d.processing_time_ms.getD 0),
    .int (d.total_time_ms.getD 0),
    (match d.http_status with
      | some s => if s = 0 then .str "" else .int (Int.ofNat s)
      | none => .str ""),
    .str (d.error_message.getD ""),
    .str (formatValue (paramsValue d.model_parameters)),
    .bool (d.stream_mode.getD false),
    .int (d.system_load_cpu.getD 0),
    .int (d.system_load_memory.getD 0),
    .int (d.concurrent_requests.getD 0),
    .str (d.session_id.getD "") ]

/-- One serialized row cell: `"${this.formatValue(val)}"` from the `.map` in
`CSVLogger.log`. -/
def quoteCell (v : CsvValue) : String :=
  "\"" ++ formatValue v ++ "\""

/-- The serialized cells of one appended CSV row. -/
def logRowCells (timestamp : String) (d : LogData) : List String :=
  (logCells timestamp d).map quoteCell

/-- The full appended line: cells joined with commas, newline-terminated. -/
def logRow (timestamp : String) (d : LogData) : String :=
  String.intercalate "," (logRowCells timestamp d) ++ "\n"

/-- Total lookup into a cell list (out of range yields `null`, which no stated
index ever hits). -/
def cellAt : List CsvValue → Nat → CsvValue
  | [], _ => .nullv
  | c :: _, 0 => c
  | _ :: cs, n + 1 => cellAt cs n

/-- The integer carried by a cell (`0` for non-integer cells). -/
def cellInt (l : List CsvValue) (i : Nat) : Int :=
  match cellAt l i with
  | .int n => n
  | _ => 0

/-- Total lookup into a serialized row (out of range yields `""`). -/
def rowCellAt : List String → Nat → String
  | [], _ => ""
  | c :: _, 0 => c
  | _ :: cs, n + 1 => rowCellAt cs n

/-- `CSVLogger` constructor: `this.logFile = path.join(logPath,
'ollama-proxy.csv')`, modelled as plain slash-joining (the claims do not
depend on `path.join`'s normalization of a leading dot segment). -/
def csvLoggerLogFile (logPath : String) : String :=
  logPath ++ "/ollama-proxy.csv"

/-- server.js line 12: `this.logger = new CSVLogger()` — the constructor is
called with no argument, so the `CSVLogger` default `'./logs'` is used; the
`LOG_PATH` environment variable is not read anywhere in the sources, which is
why this function ignores it. -/
def serverCsvLogPath (_envLogPath : Option String) : String :=
  "./logs"

/-- The audit sink the running server writes, as a function of the `LOG_PATH`
environment variable. -/
def serverLogFile (envLogPath : Option String) : String :=
  csvLoggerLogFile (serverCsvLogPath envLogPath)

/-- The client-visible response body: either the verbatim relay of the
upstream body (`res.send(responseData)`) or the synthesized catch-branch JSON
object with exactly the fields `error`, `message`, `request_id`. -/
inductive ClientBody where
  | relay : String → ClientBody
  | errorJson : String → String → String → ClientBody
  deriving DecidableEq

/-- The response the client receives. -/
structure ClientResponse where
  status : Nat
  headers : List (String × String)
  body : ClientBody
  deriving DecidableEq

/-- `proxyRequest` lines 67-76: the `logData` object built at handler entry,
before the upstream exchange.  `gaugeNow` is `this.concurrentRequests` at that
moment (the tracking middleware has already incremented it for this
request). -/
def buildInitialLogData (r : Req) (gaugeNow : Int) : LogData :=
  { request_id := some r.requestId,
    ip_source := some (ipSource r),
    user_agent := r.userAgent,
    http_method := some r.method,
    endpoint := some r.path,
    session_id := some (sessionIdOf r),
    concurrent_requests := some gaugeNow,
    request_size_bytes := some r.bodyJsonLen }

/-- `proxyRequest` success branch (lines 124-148): metric extraction from the
request body and the upstream response, assembly of the remaining `logData`
fields, and the relay of the upstream status, headers and body to the
client. -/
def finishSuccess (r : Req) (ld : LogData) (resp : UpstreamResponse)
    (clk : Clock) (load : Load) : ClientResponse × LogData :=
  let input := extractInputTokens resp.data
  let output := extractOutputTokens resp.data
  let ld2 : LogData :=
    { ld with
      model := some (extractModel r.body resp.data),
      input_tokens := some input,
      output_tokens := some output,
      total_tokens := some (input + output),
      model_parameters := extractModelParameters r.body,
      stream_mode := some ((r.body.bind RequestBody.stream).getD false),
      response_size_bytes := some resp.data.raw.length,
      http_status := some resp.status,
      queue_time_ms := some (clk.processingStart - clk.queueStart),
      processing_time_ms := some (clk.processingEnd - clk.processingStart),
      total_time_ms := some (clk.finish - r.startTime),
      system_load_cpu := some load.cpuUser,
      system_load_memory := some load.memory }
  (⟨resp.status, resp.headers, .relay resp.data.raw⟩, ld2)

/-- The catch branch's `error.response?.status || 500`. -/
def failureStatus (e : TransportError) : Nat :=
  match e.responseStatus with
  | some s => if s = 0 then 500 else s
  | none => 500

/-- `proxyRequest` catch branch (lines 159-179): error bookkeeping on
`logData` and the synthesized `\x7berror, message, request_id\x7d` client
body.  None of the metric-extraction assignments of the success branch run
here. -/
def finishFailure (r : Req) (ld : LogData) (e : TransportError)
    (clk : Clock) : ClientResponse × LogData :=
  let ld2 : LogData :=
    { ld with
      error_message := some e.message,
      http_status := some (failureStatus e),
      total_time_ms := some (clk.finish - r.startTime) }
  (⟨failureStatus e, [], .errorJson "Proxy error" e.message r.requestId⟩, ld2)

/-- What a request observes when it resumes after the upstream exchange: the
axios outcome and the clock/load samples taken at that point. -/
structure Completion where
  outcome : UpstreamOutcome
  clk : Clock := {}
  load : Load := {}
  deriving DecidableEq

/-- The part of `proxyRequest` that runs when the awaited upstream call
returns: the success branch or the catch branch. -/
def resumeHandler (r : Req) (ld : LogData) (c : Completion) :
    ClientResponse × LogData :=
  match c.outcome with
  | .ok resp => finishSuccess r ld resp c.clk c.load
  | .failed e => finishFailure r ld e c.clk

/-- The whole `proxyRequest` handler for one request: build `logData` at entry
with the gauge reading of that moment, then branch on the upstream outcome.
In both branches the `finally` block appends exactly the returned record to
the CSV sink. -/
def proxyRequest (r : Req) (gaugeAtEntry : Int) (clk : Clock) (load : Load) :
    UpstreamOutcome → ClientResponse × LogData
  | o => resumeHandler r (buildInitialLogData r gaugeAtEntry) ⟨o, clk, load⟩

/-- Scheduler steps of the single-threaded event loop.  `enter i r` runs the
tracking middleware (gauge increment) and the handler entry for request `i`,
up to the await on the upstream call; `complete i c` runs that request's
resumption: the branch code, the record append, the response send, and the
`res.on('finish')` gauge decrement. -/
inductive Step where
  | enter : Nat → Req → Step
  | complete : Nat → Completion → Step
  deriving DecidableEq

/-- One appended record together with the gauge value observed at the moment
the record's metrics were finalized (its completion step, before that step's
own decrement). -/
structure Finalized where
  reqIndex : Nat
  record : LogData
  response : ClientResponse
  gaugeAtFinalize : Int
  deriving DecidableEq

/-- The shared state of the event loop: the concurrency gauge, the requests
currently awaiting their upstream call (with the `logData` each built at
entry), and the records appended so far. -/
structure TraceState where
  gauge : Int
  pending : List (Nat × Req × LogData)
  finalized : List Finalized
  deriving DecidableEq

/-- Process start: gauge `0`, nothing in flight, empty sink. -/
def TraceState.init : TraceState := ⟨0, [], []⟩

/-- First pending entry for request index `i`, if any. -/
def findPending (i : Nat) : List (Nat × Req × LogData) → Option (Req × LogData)
  | [] => none
  | p :: ps => if p.1 = i then some p.2 else findPending i ps

/-- Remove the first pending entry for request index `i`. -/
def removePending (i : Nat) : List (Nat × Req × LogData) → List (Nat × Req × LogData)
  | [] => []
  | p :: ps => if p.1 = i then ps else p :: removePending i ps

/-- One scheduler step.  `enter`: `this.concurrentRequests++` followed by the
handler building its `logData` with the incremented gauge.  `complete`: the
matching in-flight request resumes, its record is appended, and the response
`finish` event decrements the gauge; a `complete` with no matching in-flight
request is a no-op. -/
def stepTrace (s : TraceState) : Step → TraceState
  | .enter i r =>
    let g := s.gauge + 1
    { s with gauge := g, pending := (i, r, buildInitialLogData r g) :: s.pending }
  | .complete i c =>
    match findPending i s.pending with
    | none => s
    | some rld =>
      let res := resumeHandler rld.1 rld.2 c
      { gauge := s.gauge - 1,
        pending := removePending i s.pending,
        finalized := s.finalized ++ [⟨i, res.2, res.1, s.gauge⟩] }

/-- Run a whole trace from process start. -/
def runTrace (steps : List Step) : TraceState :=
  steps.foldl stepTrace TraceState.init

/-- Number of `enter` steps in a trace. -/
def countEnters : List Step → Nat
  | [] => 0
  | .enter _ _ :: rest => countEnters rest + 1
  | .complete _ _ :: rest => countEnters rest

lemma removePending_length (i : Nat) (l : List (Nat × Req × LogData))
    (x : Req × LogData) (h : findPending i l = some x) :
    (removePending i l).length + 1 = l.length := by
  induction l with
  | nil => simp [findPending] at h
  | cons p ps ih =>
    by_cases hp : p.1 = i
    · simp [removePending, hp]
    · simp only [findPending, hp, if_false] at h
      simp only [removePending, hp, if_false, List.length_cons]
      rw [← ih h]

lemma stepTrace_gauge (s : TraceState) (st : Step) :
    (stepTrace s st).gauge - ((stepTrace s st).pending.length : Int)
      = s.gauge - (s.pending.length : Int) := by
  cases st with
  | enter i r =>
    simp [stepTrace]
  | complete i c =>
    cases h : findPending i s.pending with
    | none => simp [stepTrace, h]
    | some x =>
      have hl := removePending_length i s.pending x h
      simp [stepTrace, h]
      omega

lemma stepTrace_records (s : TraceState) (st : Step) :
    (stepTrace s st).finalized.length + (stepTrace s st).pending.length
      = s.finalized.length + s.pending.length + countEnters [st] := by
  cases st with
  | enter i r =>
    simp [stepTrace, countEnters]
    omega
  | complete i c =>
    cases h : findPending i s.pending with
    | none => simp [stepTrace, h, countEnters]
    | some x =>
      have hl := removePending_length i s.pending x h
      simp [stepTrace, h, countEnters]
      omega

lemma foldl_gauge (steps : List Step) (s : TraceState) :
    (steps.foldl stepTrace s).gauge - ((steps.foldl stepTrace s).pending.length : Int)
      = s.gauge - (s.pending.length : Int) := by
  induction steps generalizing s with
  | nil => rfl
  | cons st rest ih =>
    rw [List.foldl_cons, ih (stepTrace s st), stepTrace_gauge]

lemma countEnters_cons (st : Step) (rest : List Step) :
    countEnters (st :: rest) = countEnters [st] + countEnters rest := by
  cases st with
  | enter i r => simp [countEnters]; omega
  | complete i c => simp [countEnters]

lemma foldl_records (steps : List Step) (s : TraceState) :
    (steps.foldl stepTrace s).finalized.length + (steps.foldl stepTrace s).pending.length
      = s.finalized.length + s.pending.length + countEnters steps := by
  induction steps generalizing s with
  | nil => simp [countEnters]
  | cons st rest ih =>
    rw [List.foldl_cons, ih (stepTrace s st), countEnters_cons]
    have := stepTrace_records s st
    omega

/-- A concrete interleaved trace mixing a success, a transport failure and an
upstream 404, with all entered requests completed. -/
def mixedTrace : List Step :=
  [ .enter 0 {},
    .enter 1 { requestId := "b7" },
    .complete 1 ⟨.failed { message := "connect ECONNREFUSED 127.0.0.1:11434" }, {}, {}⟩,
    .enter 2 { requestId := "c3" },
    .complete 0 ⟨.ok {}, {}, {}⟩,
    .complete 2 ⟨.ok { status := 404 }, {}, {}⟩ ]

/-- Claim C7: every request mutates the gauge exactly twice (+1 at entry, -1
after its response is sent), so for any interleaving of concurrent requests
the ConcurrencyGauge returns to 0 once every entered request has fully
completed (no request left pending). -/
theorem gauge_returns_to_zero (steps : List Step)
    (h : (runTrace steps).pending = []) :
    (runTrace steps).gauge = 0 := by
  have hg := foldl_gauge steps TraceState.init
  simp only [runTrace] at h ⊢
  rw [h] at hg
  simpa [TraceState.init] using hg

/-- Witness for the gauge theorem: a concrete interleaving of three requests
(success, transport failure, upstream 404) drains to gauge 0. -/
theorem gauge_returns_to_zero_witness :
    (runTrace mixedTrace).pending = [] ∧ (runTrace mixedTrace).gauge = 0 :=
  ⟨by decide, gauge_returns_to_zero mixedTrace (by decide)⟩

/-- Claim C2: exactly one AuditRecord is appended per inbound request that
enters the pipeline: for any interleaving in which all entered requests have
completed (any mix of success, upstream HTTP error and transport failure),
the number of appended records equals the number of entered requests. -/
theorem one_audit_record_per_request (steps : List Step)
    (h : (runTrace steps).pending = []) :
    (runTrace steps).finalized.length = countEnters steps := by
  have hr := foldl_records steps TraceState.init
  simp only [runTrace] at h ⊢
  rw [h] at hr
  simpa [TraceState.init] using hr

/-- Witness for the records-count theorem on the concrete mixed trace. -/
theorem one_audit_record_per_request_witness :
    (runTrace mixedTrace).pending = []
    ∧ (runTrace mixedTrace).finalized.length = countEnters mixedTrace :=
  ⟨by decide, one_audit_record_per_request mixedTrace (by decide)⟩

/-- A trace in which a second request enters while the first awaits its
upstream call: when the first request's metrics are finalized the gauge
reads 2, but its record carries the entry-time reading 1. -/
def gaugeCexTrace : List Step :=
  [ .enter 0 {}, .enter 1 { requestId := "b7" }, .complete 0 ⟨.ok {}, {}, {}⟩ ]

/-- Claim C3 counterexample: the record finalized in `gaugeCexTrace` embeds
`concurrent_requests = 1` (the gauge at its entry) while the gauge at the
moment its metrics were finalized is 2, so `concurrent_requests` does not
equal the gauge at extraction time. -/
theorem concurrent_requests_extraction_time_cex :
    ((runTrace gaugeCexTrace).finalized.map fun f =>
        (f.record.concurrent_requests, f.gaugeAtFinalize)) = [(some 1, 2)]
    ∧ ¬ (∀ f ∈ (runTrace gaugeCexTrace).finalized,
          f.record.concurrent_requests = some f.gaugeAtFinalize) := by
  constructor
  · decide
  · decide

/-- Claim C3 as amended: the `concurrent_requests` value embedded in each
AuditRecord is the ConcurrencyGauge reading taken when `logData` is built at
handler entry (after the middleware's increment), and the post-exchange
finalization never updates it. -/
theorem concurrent_requests_read_at_entry :
    (∀ (r : Req) (g : Int), (buildInitialLogData r g).concurrent_requests = some g)
    ∧ (∀ (r : Req) (ld : LogData) (c : Completion),
        (resumeHandler r ld c).2.concurrent_requests = ld.concurrent_requests)
    ∧ (∀ (r : Req) (g : Int) (clk : Clock) (load : Load) (o : UpstreamOutcome),
        (proxyRequest r g clk load o).2.concurrent_requests = some g) := by
  refine ⟨fun r g => rfl, fun r ld c => ?_, fun r g clk load o => ?_⟩
  · obtain ⟨o, clk, load⟩ := c
    cases o <;> rfl
  · cases o <;> rfl

/-- The request of the C1 counterexample: its body declares a model, a
sampling parameter and streaming. -/
def c1req : Req :=
  { requestId := "req-1",
    body := some { model := some "llama2", stream := some true, temperature := some "0.7" } }

/-- The transport failure of the C1 counterexample. -/
def c1err : TransportError := { message := "connect ECONNREFUSED 127.0.0.1:11434" }

/-- Claim C1 counterexample: on the transport-failure branch the extractors
are not run.  The appended record's model, stream and parameter fields are
unset (serialized as the defaults), although the request body is available
and the extractors applied to it yield `"llama2"`, `true` and the
temperature mapping. -/
theorem extraction_on_failure_branch_cex :
    (proxyRequest c1req 1 {} {} (.failed c1err)).2.model = none
    ∧ (proxyRequest c1req 1 {} {} (.failed c1err)).2.stream_mode = none
    ∧ (proxyRequest c1req 1 {} {} (.failed c1err)).2.model_parameters = none
    ∧ (proxyRequest c1req 1 {} {} (.failed c1err)).2.input_tokens = none
    ∧ extractModel c1req.body {} = "llama2"
    ∧ extractModelParameters c1req.body = some [("temperature", "0.7")]
    ∧ (c1req.body.bind RequestBody.stream).getD false = true
    ∧ rowCellAt (logRowCells "2026-01-01T00:00:00.000Z"
        (proxyRequest c1req 1 {} {} (.failed c1err)).2) 6 = "\"\"" := by
  decide

/-- Claim C1 as amended: the MetricExtractor runs exactly on the branch where
an upstream response was obtained (success or upstream HTTP error), and
there populates model, token, parameter and stream fields; on the
transport-failure branch no extraction is performed and those fields are
serialized as the sink defaults (empty model, 0 tokens, empty parameters,
stream false). -/
theorem extraction_on_success_branch_only :
    (∀ (r : Req) (g : Int) (clk : Clock) (load : Load) (resp : UpstreamResponse),
        (proxyRequest r g clk load (.ok resp)).2.model
            = some (extractModel r.body resp.data)
        ∧ (proxyRequest r g clk load (.ok resp)).2.input_tokens
            = some (extractInputTokens resp.data)
        ∧ (proxyRequest r g clk load (.ok resp)).2.output_tokens
            = some (extractOutputTokens resp.data)
        ∧ (proxyRequest r g clk load (.ok resp)).2.total_tokens
            = some (extractInputTokens resp.data + extractOutputTokens resp.data)
        ∧ (proxyRequest r g clk load (.ok resp)).2.model_parameters
            = extractModelParameters r.body
        ∧ (proxyRequest r g clk load (.ok resp)).2.stream_mode
            = some ((r.body.bind RequestBody.stream).getD false))
    ∧ (∀ (r : Req) (g : Int) (clk : Clock) (load : Load) (e : TransportError) (ts : String),
        (proxyRequest r g clk load (.failed e)).2.model = none
        ∧ (proxyRequest r g clk load (.failed e)).2.input_tokens = none
        ∧ (proxyRequest r g clk load (.failed e)).2.output_tokens = none
        ∧ (proxyRequest r g clk load (.failed e)).2.total_tokens = none
        ∧ (proxyRequest r g clk load (.failed e)).2.model_parameters = none
        ∧ (proxyRequest r g clk load (.failed e)).2.stream_mode = none
        ∧ rowCellAt (logRowCells ts (proxyRequest r g clk load (.failed e)).2) 6 = "\"\""
        ∧ rowCellAt (logRowCells ts (proxyRequest r g clk load (.failed e)).2) 7 = "\"0\""
        ∧ rowCellAt (logRowCells ts (proxyRequest r g clk load (.failed e)).2) 17 = "\"\""
        ∧ rowCellAt (logRowCells ts (proxyRequest r g clk load (.failed e)).2) 18 = "\"false\"") :=
  ⟨fun _ _ _ _ _ => ⟨rfl, rfl, rfl, rfl, rfl, rfl⟩,
   fun _ _ _ _ _ _ => ⟨rfl, rfl, rfl, rfl, rfl, rfl, rfl, rfl, rfl, rfl⟩⟩

/-- Claim C5: an upstream 4xx/5xx response is not a proxy failure: status,
headers and body are relayed verbatim to the client, and the record carries
the upstream status with an empty error message (serialized as `""`). -/
theorem upstream_http_error_relayed (r : Req) (g : Int) (clk : Clock)
    (load : Load) (resp : UpstreamResponse) (ts : String)
    (_h : 400 ≤ resp.status) :
    (proxyRequest r g clk load (.ok resp)).1
        = ⟨resp.status, resp.headers, ClientBody.relay resp.data.raw⟩
    ∧ (proxyRequest r g clk load (.ok resp)).2.http_status = some resp.status
    ∧ (proxyRequest r g clk load (.ok resp)).2.error_message = none
    ∧ rowCellAt (logRowCells ts (proxyRequest r g clk load (.ok resp)).2) 16 = "\"\"" :=
  ⟨rfl, rfl, rfl, rfl⟩

/-- The upstream 404 of the C5 witness, with the spec's scenario body. -/
def resp404 : UpstreamResponse :=
  { status := 404,
    headers := [("content-type", "application/json")],
    data := { raw := "\x7b\"error\":\"model not found\"\x7d" } }

/-- Witness for the 4xx relay theorem at the concrete 404 scenario. -/
theorem upstream_http_error_relayed_witness :
    400 ≤ resp404.status
    ∧ ((proxyRequest {} 1 {} {} (.ok resp404)).1
          = ⟨resp404.status, resp404.headers, ClientBody.relay resp404.data.raw⟩
      ∧ (proxyRequest {} 1 {} {} (.ok resp404)).2.http_status = some resp404.status
      ∧ (proxyRequest {} 1 {} {} (.ok resp404)).2.error_message = none
      ∧ rowCellAt (logRowCells "ts" (proxyRequest {} 1 {} {} (.ok resp404)).2) 16
          = "\"\"") :=
  ⟨by decide, upstream_http_error_relayed {} 1 {} {} resp404 "ts" (by decide)⟩

/-- Claim C6: on a transport failure the client receives the synthesized
JSON body with exactly the fields error, message and request_id, with status
equal to the captured upstream status when one exists (they are never 0) and
500 otherwise; the record carries that same status and the failure's
non-empty message. -/
theorem transport_failure_error_response (r : Req) (g : Int) (clk : Clock)
    (load : Load) (e : TransportError) (hm : e.message ≠ "")
    (hs : ∀ s, e.responseStatus = some s → s ≠ 0) :
    (proxyRequest r g clk load (.failed e)).1.body
        = ClientBody.errorJson "Proxy error" e.message r.requestId
    ∧ (proxyRequest r g clk load (.failed e)).1.status = e.responseStatus.getD 500
    ∧ (proxyRequest r g clk load (.failed e)).2.http_status
        = some (e.responseStatus.getD 500)
    ∧ (proxyRequest r g clk load (.failed e)).2.error_message = some e.message
    ∧ (proxyRequest r g clk load (.failed e)).2.error_message ≠ some "" := by
  have hst : failureStatus e = e.responseStatus.getD 500 := by
    cases he : e.responseStatus with
    | none => simp [failureStatus, he]
    | some s => simp [failureStatus, he, hs s he]
  refine ⟨rfl, hst, ?_, rfl, ?_⟩
  · show some (failureStatus e) = some (e.responseStatus.getD 500)
    rw [hst]
  · show ¬ (some e.message = some "")
    simp [hm]

/-- The transport failure of the C6 witness: connection refused, no captured
upstream status. -/
def c6err : TransportError := { message := "connect ECONNREFUSED 127.0.0.1:11434" }

/-- Witness for the transport-failure theorem at a concrete connection
refusal. -/
theorem transport_failure_error_response_witness :
    c6err.message ≠ ""
    ∧ ((proxyRequest {} 1 {} {} (.failed c6err)).1.body
          = ClientBody.errorJson "Proxy error" c6err.message ({} : Req).requestId
      ∧ (proxyRequest {} 1 {} {} (.failed c6err)).1.status = c6err.responseStatus.getD 500
      ∧ (proxyRequest {} 1 {} {} (.failed c6err)).2.http_status
          = some (c6err.responseStatus.getD 500)
      ∧ (proxyRequest {} 1 {} {} (.failed c6err)).2.error_message = some c6err.message
      ∧ (proxyRequest {} 1 {} {} (.failed c6err)).2.error_message ≠ some "") :=
  ⟨by decide, transport_failure_error_response {} 1 {} {} c6err (by decide)
      (fun _ h => Option.noConfusion h)⟩

/-- Claim C8: in every appended record, on success and failure paths alike,
the serialized total_tokens cell equals the sum of the serialized
input_tokens and output_tokens cells (all three defaulting to 0 when
unset). -/
theorem total_tokens_is_sum (ts : String) (r : Req) (g : Int) (clk : Clock)
    (load : Load) (o : UpstreamOutcome) :
    cellInt (logCells ts (proxyRequest r g clk load o).2) 9
      = cellInt (logCells ts (proxyRequest r g clk load o).2) 7
        + cellInt (logCells ts (proxyRequest r g clk load o).2) 8 := by
  cases o with
  | ok resp => rfl
  | failed e => rfl

/-- Claim C10: a present-but-falsy source value is skipped by the `||`
fallback chains: a zero prompt_eval_count falls through to
usage.prompt_tokens, a zero eval_count falls through to
usage.completion_tokens, an empty request-body model falls through to the
response's model, and an empty x-session-id header falls through to the
client address. -/
theorem falsy_values_fall_through :
    (∀ (rd : ResponseData) (k : Int), rd.prompt_eval_count = some 0 →
        rd.usage_prompt_tokens = some k → extractInputTokens rd = k)
    ∧ (∀ (rd : ResponseData) (k : Int), rd.eval_count = some 0 →
        rd.usage_completion_tokens = some k → extractOutputTokens rd = k)
    ∧ (∀ (b : RequestBody) (rd : ResponseData) (m : String), b.model = some "" →
        rd.model = some m → m ≠ "" → extractModel (some b) rd = m)
    ∧ (∀ r : Req, r.xSessionId = some "" → sessionIdOf r = r.ip) := by
  refine ⟨fun rd k h1 h2 => ?_, fun rd k h1 h2 => ?_,
          fun b rd m h1 h2 hm => ?_, fun r h => ?_⟩
  · by_cases hk : k = 0 <;> simp [extractInputTokens, truthyInt, h1, h2, hk]
  · by_cases hk : k = 0 <;> simp [extractOutputTokens, truthyInt, h1, h2, hk]
  · simp [extractModel, truthyStr, h1, h2, hm]
  · simp [sessionIdOf, truthyStr, h]

/-- Witness for the falsy-fallback theorem at concrete values. -/
theorem falsy_values_fall_through_witness :
    extractInputTokens { prompt_eval_count := some 0, usage_prompt_tokens := some 7 } = 7
    ∧ extractOutputTokens { eval_count := some 0, usage_completion_tokens := some 5 } = 5
    ∧ extractModel (some { model := some "" }) { model := some "phi3" } = "phi3"
    ∧ sessionIdOf { xSessionId := some "", ip := "10.0.0.9" } = "10.0.0.9" :=
  ⟨falsy_values_fall_through.1 _ 7 rfl rfl,
   falsy_values_fall_through.2.1 _ 5 rfl rfl,
   falsy_values_fall_through.2.2.1 _ _ "phi3" rfl rfl (by decide),
   falsy_values_fall_through.2.2.2 _ rfl⟩

/-- The model-parameters mapping of the C4 failing input. -/
def c4params : List (String × String) := [("temperature", "0.7"), ("top_k", "40")]

/-- Its JSON text. -/
def c4json : String := jsonStringifyParams c4params

/-- Claim C4 (code bug): `CSVLogger.log` passes `model_parameters` through
`formatValue` twice — once explicitly when building the row array and once in
the final `.map` — so each quote of the JSON text ends up quadrupled rather
than doubled, and standard CSV unquoting no longer recovers the JSON text
(it recovers the once-escaped text instead); had the quotes been doubled
exactly once, unquoting would recover it. -/
theorem model_parameters_double_escaped :
    extractModelParameters
        (some { temperature := some "0.7", top_k := some "40" }) = some c4params
    ∧ rowCellAt (logRowCells "ts" { model_parameters := some c4params }) 17
        = "\"" ++ escapeQuotes (escapeQuotes c4json) ++ "\""
    ∧ escapeQuotes (escapeQuotes c4json) ≠ escapeQuotes c4json
    ∧ csvUnquote (escapeQuotes (escapeQuotes c4json)) ≠ c4json
    ∧ csvUnquote (escapeQuotes c4json) = c4json := by
  decide

/-- Claim C9 (code bug): the server constructs its `CSVLogger` with no
argument, so the audit sink is `./logs/ollama-proxy.csv` for every value of
the `LOG_PATH` environment variable, although the `CSVLogger` constructor
applied to a configured directory would place the sink there. -/
theorem log_path_env_ignored :
    serverLogFile none = "./logs/ollama-proxy.csv"
    ∧ serverLogFile (some "/custom") = "./logs/ollama-proxy.csv"
    ∧ csvLoggerLogFile "/custom" = "/custom/ollama-proxy.csv"
    ∧ serverLogFile (some "/custom") ≠ csvLoggerLogFile "/custom" := by
  decide

end OllamaProxy
